import Mathlib

/-!
Shallow embedding of the admob-mcp-server repository: the MCP tool dispatcher
(`configureTools`, both the five-tool version in the unnamed module and the
three-tool version in `src/tools.ts`) and the OAuth credential flow
(`authorize` / `loadSavedCredentialsIfExist` / `authenticate` in the unnamed
auth module).  JavaScript values that matter to the dispatcher (possibly
`undefined` strings and arrays, `Number` conversion producing NaN) are
modelled explicitly; thrown JavaScript exceptions are modelled as an explicit
`thrown` outcome of the handler.
-/

/-- Result of JavaScript `Number(s)` on the chunks produced by splitting a date
string: the empty string converts to 0, a digit string to its value, anything
else to NaN. -/
inductive JsNum
  | nan
  | int (n : Nat)
deriving Repr, DecidableEq

/-- Value of a decimal digit character, if it is one. -/
def digitVal (c : Char) : Option Nat :=
  if '0' ≤ c ∧ c ≤ '9' then some (c.toNat - '0'.toNat) else none

/-- Decimal value of a digit-character list; `none` on any non-digit.  The
empty list evaluates to 0, matching JavaScript `Number("")`. -/
def parseDigitsAux (acc : Nat) : List Char → Option Nat
  | [] => some acc
  | c :: cs =>
      match digitVal c with
      | some d => parseDigitsAux (acc * 10 + d) cs
      | none => none

/-- JavaScript `Number(s)` restricted to the strings the dispatcher feeds it
(pieces of `dateRange*.split("-")`, which contain no sign, dot or exponent):
the empty string converts to 0, a digit string to its value, anything else to
NaN. -/
def jsNumber (s : String) : JsNum :=
  match parseDigitsAux 0 s.toList with
  | some n => .int n
  | none => .nan

/-- Splitting helper accumulating the current chunk in reverse. -/
def splitOnCharAux (sep : Char) : List Char → List Char → List (List Char)
  | [], acc => [acc.reverse]
  | c :: cs, acc =>
      if c = sep then acc.reverse :: splitOnCharAux sep cs []
      else splitOnCharAux sep cs (c :: acc)

/-- JavaScript `s.split(sep)` for a one-character separator; `"".split(sep)`
yields `[""]`. -/
def jsSplit (s : String) (sep : Char) : List String :=
  (splitOnCharAux sep s.toList []).map List.asString

/-- Date object built by destructuring `s.split("-").map(Number)` into
`[year, month, day]`; a missing component is JavaScript `undefined`, modelled
as `none`. -/
structure JsDate where
  year : Option JsNum
  month : Option JsNum
  day : Option JsNum
deriving Repr, DecidableEq

/-- Lines 396-397 of the five-tool dispatcher: `dateRange.split("-").map(Number)`
destructured into a year/month/day triple. -/
def parseDateParts (s : String) : JsDate :=
  let parts := (jsSplit s '-').map jsNumber
  { year := parts[0]?, month := parts[1]?, day := parts[2]? }

/-- JavaScript truthiness of a possibly-undefined string: `undefined`, `null`
and `""` are falsy, every other string is truthy. -/
def jsTruthyStr : Option String → Bool
  | none => false
  | some s => s ≠ ""

/-- One element of the `dimensionFilters` tool argument:
`{dimension: string, values: string[]}`. -/
structure FilterArg where
  dimension : String
  values : List String
deriving Repr, DecidableEq

/-- The `dimensionSortCondition` tool argument, an object whose `dimension`
and `order` properties may each be absent (the source reads `.length` off
them without checking, so absence matters). -/
structure DimSortArg where
  dimension : Option String := none
  order : Option String := none
deriving Repr, DecidableEq

/-- The `metricSortCondition` tool argument, an object whose `metric` and
`order` properties may each be absent. -/
structure MetSortArg where
  metric : Option String := none
  order : Option String := none
deriving Repr, DecidableEq

/-- The argument object of a report tool call; every field may be absent
(JavaScript `undefined`), modelled as `none`. -/
structure ReportArgs where
  dateRangeStart : Option String := none
  dateRangeEnd : Option String := none
  metrics : Option (List String) := none
  dimensions : Option (List String) := none
  dimensionFilters : Option (List FilterArg) := none
  dimensionSortCondition : Option DimSortArg := none
  metricSortCondition : Option MetSortArg := none
deriving Repr, DecidableEq

/-- The `matchesAny` wrapper the dispatcher builds around filter values. -/
structure MatchesAny where
  values : List String
deriving Repr, DecidableEq

/-- One provider-side dimension filter: `{dimension, matchesAny: {values}}`. -/
structure SpecFilter where
  dimension : String
  matchesAny : MatchesAny
deriving Repr, DecidableEq

/-- One entry of `reportSpec.sortConditions`: either a dimension sort or a
metric sort, each with an order string. -/
inductive SortCondition
  | dimension (dimension : String) (order : String)
  | metric (metric : String) (order : String)
deriving Repr, DecidableEq

/-- The `dateRange` of a report specification. -/
structure DateRange where
  startDate : JsDate
  endDate : JsDate
deriving Repr, DecidableEq

/-- The report specification object the dispatcher builds; an optional field
set to `none` models the key being absent from the object. -/
structure ReportSpec where
  dateRange : DateRange
  metrics : List String
  dimensions : Option (List String) := none
  dimensionFilters : Option (List SpecFilter) := none
  sortConditions : Option (List SortCondition) := none
deriving Repr, DecidableEq

/-- Lines 411-440 of the five-tool dispatcher: the base `reportSpec` — date
range, metrics, then the `dimensions` key added only when the array is
nonempty and `dimensionFilters` only when `Object.keys(...)` is nonzero (for
an array, its length). -/
def buildReportSpecBase (dateRangeStart dateRangeEnd : String) (metrics : List String)
    (dimensions : Option (List String)) (dimensionFilters : Option (List FilterArg)) :
    ReportSpec :=
  let spec0 : ReportSpec :=
    { dateRange :=
        { startDate := parseDateParts dateRangeStart
          endDate := parseDateParts dateRangeEnd }
      metrics := metrics }
  let spec1 :=
    match dimensions with
    | some d => if d.length > 0 then { spec0 with dimensions := some d } else spec0
    | none => spec0
  match dimensionFilters with
  | some fl =>
      if fl.length > 0 then
        { spec1 with
            dimensionFilters :=
              some (fl.map fun f =>
                { dimension := f.dimension, matchesAny := { values := f.values } }) }
      else spec1
  | none => spec1

/-- `cond && Object.keys(cond).length > 0` for the dimension-sort argument:
the object is present and carries at least one key (JSON-parsed arguments
never carry undefined-valued keys). -/
def dimSortHasKeys : Option DimSortArg → Bool
  | none => false
  | some c => c.dimension.isSome || c.order.isSome

/-- `cond && Object.keys(cond).length > 0` for the metric-sort argument. -/
def metSortHasKeys : Option MetSortArg → Bool
  | none => false
  | some c => c.metric.isSome || c.order.isSome

/-- Both properties of the dimension-sort object are present, the only shapes
the tool's input schema admits (`required: [dimension, order]`). -/
def dimSortFieldsPresent : Option DimSortArg → Bool
  | none => true
  | some c => c.dimension.isSome && c.order.isSome

/-- Both properties of the metric-sort object are present. -/
def metSortFieldsPresent : Option MetSortArg → Bool
  | none => true
  | some c => c.metric.isSome && c.order.isSome

/-- Lines 451-460 of the five-tool dispatcher:
`dimensionSortCondition && dimensionSortCondition.dimension.length > 0 &&
dimensionSortCondition.order.length > 0`, with JavaScript short-circuiting —
reading `.length` off an absent property throws a TypeError, and `order` is
only examined when `dimension` is a nonempty string. -/
def sortEntriesDim : Option DimSortArg → Except String (List SortCondition)
  | none => .ok []
  | some c =>
    match c.dimension with
    | none => .error "TypeError: dimensionSortCondition.dimension is undefined"
    | some d =>
      if d.length > 0 then
        match c.order with
        | none => .error "TypeError: dimensionSortCondition.order is undefined"
        | some o => if o.length > 0 then .ok [.dimension d o] else .ok []
      else .ok []

/-- Lines 462-471 of the five-tool dispatcher: the metric-sort condition
check, same short-circuit and throwing behaviour as the dimension one. -/
def sortEntriesMet : Option MetSortArg → Except String (List SortCondition)
  | none => .ok []
  | some c =>
    match c.metric with
    | none => .error "TypeError: metricSortCondition.metric is undefined"
    | some m =>
      if m.length > 0 then
        match c.order with
        | none => .error "TypeError: metricSortCondition.order is undefined"
        | some o => if o.length > 0 then .ok [.metric m o] else .ok []
      else .ok []

/-- Lines 411-476 of the five-tool dispatcher: full `reportSpec` construction.
The sort block runs only when a sort-condition object with at least one key
was supplied; the dimension condition is evaluated first (its TypeError wins),
then the metric one, the entries are pushed dimension-first, and the
`sortConditions` key is added only when at least one entry was pushed.  A
TypeError raised by a property access escapes as `.error`. -/
def buildReportSpec (dateRangeStart dateRangeEnd : String) (metrics : List String)
    (dimensions : Option (List String)) (dimensionFilters : Option (List FilterArg))
    (dimensionSortCondition : Option DimSortArg) (metricSortCondition : Option MetSortArg) :
    Except String ReportSpec :=
  let spec2 := buildReportSpecBase dateRangeStart dateRangeEnd metrics dimensions dimensionFilters
  if dimSortHasKeys dimensionSortCondition || metSortHasKeys metricSortCondition then
    match sortEntriesDim dimensionSortCondition with
    | .error msg => .error msg
    | .ok dimEntries =>
      match sortEntriesMet metricSortCondition with
      | .error msg => .error msg
      | .ok metEntries =>
        let conds := dimEntries ++ metEntries
        .ok (if conds.length > 0 then { spec2 with sortConditions := some conds } else spec2)
  else .ok spec2

/-- Payload of a text content block.  Literal and template strings are carried
as the strings themselves; `JSON.stringify` of a structured payload is carried
as a constructor applied to the payload (the item shapes are opaque to the
dispatcher, which never inspects them). -/
inductive TextPayload
  | plain (s : String)
  | jsonReport (data : String)
  | jsonAccount (name publisherId reportingTimeZone currencyCode : Option String)
  | jsonAdUnits (items : List String)
  | jsonApps (items : List String)
deriving Repr, DecidableEq

/-- One MCP content block `{type: "text", text: ...}`. -/
structure ContentBlock where
  type : String
  text : TextPayload
deriving Repr, DecidableEq

/-- An MCP tool response; a missing `isError` key is modelled as `false`. -/
structure ToolResponse where
  content : List ContentBlock
  isError : Bool := false
deriving Repr, DecidableEq

/-- A successful (non-error) single-text-block response. -/
def textResponse (t : TextPayload) : ToolResponse :=
  { content := [{ type := "text", text := t }] }

/-- An `isError: true` single-text-block response. -/
def errorResponse (t : TextPayload) : ToolResponse :=
  { content := [{ type := "text", text := t }], isError := true }

/-- Upstream behaviour of one `adUnits.list` / `apps.list` request: a
successful response (`result.ok`) whose data carries an optional item array
and an optional next-page token, a failed response with an HTTP status, or a
rejected promise (the awaited call throws). -/
inductive PageResult
  | ok (items : Option (List String)) (nextPageToken : Option String)
  | httpError (status : Nat)
  | raised (msg : String)
deriving Repr, DecidableEq

/-- The account fields the `get_account` branch projects out of the response. -/
structure AccountData where
  name : Option String
  publisherId : Option String
  reportingTimeZone : Option String
  currencyCode : Option String
deriving Repr, DecidableEq

/-- Upstream behaviour of `accounts.get`: a successful response, an HTTP
failure, or a rejected promise — the `get_account` branch has no try/catch, so
a rejection escapes the handler. -/
inductive AccountResult
  | ok (data : AccountData)
  | httpError (status : Nat)
  | raised (msg : String)
deriving Repr, DecidableEq

/-- Upstream behaviour of a report `generate` call (payload opaque, carried as
a string); a rejected promise escapes the report branch, which also has no
try/catch. -/
inductive ReportResult
  | ok (data : String)
  | httpError (status : Nat)
  | raised (msg : String)
deriving Repr, DecidableEq

/-- A fixed behaviour of the upstream AdMob API for one tool call: the scripted
responses to each endpoint, with the list endpoints scripted page by page in
request order. -/
structure Upstream where
  accountGet : AccountResult
  adUnitsPages : List PageResult
  appsPages : List PageResult
  networkReport : ReportResult
  mediationReport : ReportResult
deriving Repr, DecidableEq

/-- An outbound API request the dispatcher attempts. -/
inductive ApiRequest
  | accountGet (name : String)
  | adUnitsList (parent : String) (pageToken : Option String)
  | appsList (parent : String) (pageToken : Option String)
  | networkGenerate (parent : String) (spec : ReportSpec)
  | mediationGenerate (parent : String) (spec : ReportSpec)
deriving Repr, DecidableEq

/-- Outcome of the pagination do-while loop, as seen by the code after the
`try` block: the concatenated items, an HTTP failure returned from inside the
loop, or an exception caught by the surrounding `catch`.  `exhausted` is a
model artifact marking the scripted upstream running out of responses while
the loop still holds a truthy token; it is unreachable for well-formed
scripts. -/
inductive LoopResult
  | success (items : List String)
  | httpError (status : Nat)
  | caught (msg : String)
  | exhausted
deriving Repr, DecidableEq

/-- The pagination do-while loop of the list branches (lines 555-584 and
614-643 of the five-tool dispatcher): issue a request carrying the current
token, stop with an error response on `!result.ok`, append the page's items
when the array is present and nonempty, set the token to
`data.nextPageToken ?? undefined`, and continue while the token is truthy.
Returns the tokens of the requests issued, in order, paired with the loop
outcome. -/
def runListLoop (pageToken : Option String) : List PageResult → List (Option String) × LoopResult
  | [] => ([], .exhausted)
  | .raised msg :: _ => ([pageToken], .caught msg)
  | .httpError status :: _ => ([pageToken], .httpError status)
  | .ok items next :: rest =>
      let fetched :=
        match items with
        | some l => if l.length > 0 then l else []
        | none => []
      if jsTruthyStr next then
        let tail := runListLoop next rest
        (pageToken :: tail.1,
          match tail.2 with
          | .success l => .success (fetched ++ l)
          | other => other)
      else ([pageToken], .success fetched)

/-- The stored `credentials/token.json` record. -/
structure Token where
  type : String
  client_id : String
  client_secret : String
  refresh_token : String
deriving Repr, DecidableEq

/-- File-system view of `credentials/token.json`: `none` when reading throws
(file absent or unreadable), `some none` when the content does not parse as a
Token, `some (some t)` when it parses to `t`. -/
abbrev TokenFile := Option (Option Token)

/-- An OAuth2 client handle: built by `google.auth.fromJSON` from a stored
Token, or built by the listener flow from a freshly exchanged refresh token. -/
inductive OAuthClient
  | fromJSON (t : Token)
  | fromExchange (refresh_token : String)
deriving Repr, DecidableEq

/-- Lines 80-88 of the auth module: read and parse the token file and wrap the
credentials via `google.auth.fromJSON`; any read or parse failure yields null. -/
def loadSavedCredentialsIfExist : TokenFile → Option OAuthClient
  | some (some t) => some (.fromJSON t)
  | _ => none

/-- The dispatcher's per-call environment: the token file the credential store
reads and the `PUBLISHER_CODE` environment variable (absent or a string). -/
structure Env where
  tokenFile : TokenFile
  publisherCode : Option String
deriving Repr, DecidableEq

/-- Outcome of running the CallTool handler: a returned MCP response, a thrown
JavaScript exception escaping the handler, or the model artifact of a scripted
upstream running out of pagination responses. -/
inductive HandlerResult
  | response (r : ToolResponse)
  | thrown (msg : String)
  | stuck
deriving Repr, DecidableEq

/-- The `Not Authenticated` soft error returned when the credential store
yields no client. -/
def notAuthenticatedResponse : ToolResponse :=
  errorResponse (.plain "Not Authenticated. Try running `npm run auth` to authenticate.")

/-- The soft error returned when `PUBLISHER_CODE` is unset or empty. -/
def publisherCodeMissingResponse : ToolResponse :=
  errorResponse (.plain "PUBLISHER_CODE environment variable not set.")

/-- Lines 362-514 of the five-tool dispatcher: the shared
`generate_network_report` / `generate_mediation_report` branch.  Mirrors the
source order: missing arguments object returns a soft error; the two date
splits run before the required-parameter check, so a date that is absent
(`undefined`) throws a TypeError out of the handler; the check then fires when
a date is the empty string or `metrics` is absent (an empty metrics array is
truthy and passes); the spec construction can itself throw on a sort-condition
property access; finally the generate request is issued — a non-ok result
becomes a status error response, and a rejected await escapes the handler,
since nothing in this branch is wrapped in try/catch. -/
def reportBranch (isNetwork : Bool) (publisherCode : String) (args : Option ReportArgs)
    (up : Upstream) : HandlerResult × List ApiRequest :=
  match args with
  | none => (.response (errorResponse (.plain "No arguments provided.")), [])
  | some a =>
    match a.dateRangeStart, a.dateRangeEnd with
    | none, _ => (.thrown "TypeError: dateRangeStart is undefined", [])
    | some _, none => (.thrown "TypeError: dateRangeEnd is undefined", [])
    | some startStr, some endStr =>
      if startStr = "" ∨ endStr = "" ∨ a.metrics = none then
        (.response (errorResponse (.plain "Missing required parameters.")), [])
      else
        match buildReportSpec startStr endStr (a.metrics.getD []) a.dimensions
            a.dimensionFilters a.dimensionSortCondition a.metricSortCondition with
        | .error msg => (.thrown msg, [])
        | .ok spec =>
          let parent := "accounts/" ++ publisherCode
          let req :=
            if isNetwork then ApiRequest.networkGenerate parent spec
            else ApiRequest.mediationGenerate parent spec
          let result := if isNetwork then up.networkReport else up.mediationReport
          match result with
          | .raised msg => (.thrown msg, [req])
          | .httpError status =>
              (.response (errorResponse (.plain ("API request failed with status: " ++ toString status))),
                [req])
          | .ok data => (.response (textResponse (.jsonReport data)), [req])

/-- Lines 516-548 of the five-tool dispatcher: the `get_account` branch; not
wrapped in try/catch, so a rejected `accounts.get` await escapes the handler. -/
def getAccountBranch (publisherCode : String) (up : Upstream) :
    HandlerResult × List ApiRequest :=
  let req := ApiRequest.accountGet ("accounts/" ++ publisherCode)
  match up.accountGet with
  | .raised msg => (.thrown msg, [req])
  | .httpError status =>
      (.response (errorResponse (.plain ("API request failed: " ++ toString status))), [req])
  | .ok data =>
      (.response
          (textResponse
            (.jsonAccount data.name data.publisherId data.reportingTimeZone data.currencyCode)),
        [req])

/-- Lines 550-607 of the five-tool dispatcher: the `list_ad_units` branch,
wrapping the pagination loop in a try/catch that converts a thrown error into
an `An error occurred` soft error response. -/
def listAdUnitsBranch (publisherCode : String) (up : Upstream) :
    HandlerResult × List ApiRequest :=
  let parent := "accounts/" ++ publisherCode
  let run := runListLoop none up.adUnitsPages
  let reqs := run.1.map (ApiRequest.adUnitsList parent)
  match run.2 with
  | .success items => (.response (textResponse (.jsonAdUnits items)), reqs)
  | .httpError status =>
      (.response (errorResponse (.plain ("API request failed with status: " ++ toString status))),
        reqs)
  | .caught msg => (.response (errorResponse (.plain ("An error occurred: " ++ msg))), reqs)
  | .exhausted => (.stuck, reqs)

/-- Lines 609-666 of the five-tool dispatcher: the `list_apps` branch. -/
def listAppsBranch (publisherCode : String) (up : Upstream) :
    HandlerResult × List ApiRequest :=
  let parent := "accounts/" ++ publisherCode
  let run := runListLoop none up.appsPages
  let reqs := run.1.map (ApiRequest.appsList parent)
  match run.2 with
  | .success items => (.response (textResponse (.jsonApps items)), reqs)
  | .httpError status =>
      (.response (errorResponse (.plain ("API request failed with status: " ++ toString status))),
        reqs)
  | .caught msg => (.response (errorResponse (.plain ("An error occurred: " ++ msg))), reqs)
  | .exhausted => (.stuck, reqs)

/-- Lines 332-669 of the five-tool dispatcher: the CallTool handler.  Checks
the credential store, then `PUBLISHER_CODE` (unset or empty string is falsy),
then dispatches on the tool name in source order; an unknown name throws.
Returns the handler outcome paired with the ordered list of outbound API
requests attempted. -/
def handleCallTool (env : Env) (up : Upstream) (name : String) (args : Option ReportArgs) :
    HandlerResult × List ApiRequest :=
  match loadSavedCredentialsIfExist env.tokenFile with
  | none => (.response notAuthenticatedResponse, [])
  | some _ =>
    if jsTruthyStr env.publisherCode then
      let publisherCode := env.publisherCode.getD ""
      if name = "generate_network_report" then reportBranch true publisherCode args up
      else if name = "generate_mediation_report" then reportBranch false publisherCode args up
      else if name = "get_account" then getAccountBranch publisherCode up
      else if name = "list_ad_units" then listAdUnitsBranch publisherCode up
      else if name = "list_apps" then listAppsBranch publisherCode up
      else (.thrown ("Unknown tool: " ++ name), [])
    else (.response publisherCodeMissingResponse, [])

/-- The pagination do-while loop as it appears, verbatim, in `src/tools.ts`
lines 129-158 and 188-217 (the three-tool dispatcher). -/
def runListLoopV3 (pageToken : Option String) : List PageResult → List (Option String) × LoopResult
  | [] => ([], .exhausted)
  | .raised msg :: _ => ([pageToken], .caught msg)
  | .httpError status :: _ => ([pageToken], .httpError status)
  | .ok items next :: rest =>
      let fetched :=
        match items with
        | some l => if l.length > 0 then l else []
        | none => []
      if jsTruthyStr next then
        let tail := runListLoopV3 next rest
        (pageToken :: tail.1,
          match tail.2 with
          | .success l => .success (fetched ++ l)
          | other => other)
      else ([pageToken], .success fetched)

/-- `src/tools.ts` lines 90-122: the `get_account` branch of the three-tool
dispatcher — identical to the five-tool one, including the absence of any
try/catch around the awaited `accounts.get`. -/
def getAccountBranchV3 (publisherCode : String) (up : Upstream) :
    HandlerResult × List ApiRequest :=
  let req := ApiRequest.accountGet ("accounts/" ++ publisherCode)
  match up.accountGet with
  | .raised msg => (.thrown msg, [req])
  | .httpError status =>
      (.response (errorResponse (.plain ("API request failed: " ++ toString status))), [req])
  | .ok data =>
      (.response
          (textResponse
            (.jsonAccount data.name data.publisherId data.reportingTimeZone data.currencyCode)),
        [req])

/-- `src/tools.ts` lines 124-181: the `list_ad_units` branch of the three-tool
dispatcher. -/
def listAdUnitsBranchV3 (publisherCode : String) (up : Upstream) :
    HandlerResult × List ApiRequest :=
  let parent := "accounts/" ++ publisherCode
  let run := runListLoopV3 none up.adUnitsPages
  let reqs := run.1.map (ApiRequest.adUnitsList parent)
  match run.2 with
  | .success items => (.response (textResponse (.jsonAdUnits items)), reqs)
  | .httpError status =>
      (.response (errorResponse (.plain ("API request failed with status: " ++ toString status))),
        reqs)
  | .caught msg => (.response (errorResponse (.plain ("An error occurred: " ++ msg))), reqs)
  | .exhausted => (.stuck, reqs)

/-- `src/tools.ts` lines 183-240: the `list_apps` branch of the three-tool
dispatcher. -/
def listAppsBranchV3 (publisherCode : String) (up : Upstream) :
    HandlerResult × List ApiRequest :=
  let parent := "accounts/" ++ publisherCode
  let run := runListLoopV3 none up.appsPages
  let reqs := run.1.map (ApiRequest.appsList parent)
  match run.2 with
  | .success items => (.response (textResponse (.jsonApps items)), reqs)
  | .httpError status =>
      (.response (errorResponse (.plain ("API request failed with status: " ++ toString status))),
        reqs)
  | .caught msg => (.response (errorResponse (.plain ("An error occurred: " ++ msg))), reqs)
  | .exhausted => (.stuck, reqs)

/-- `src/tools.ts` lines 60-243: the CallTool handler of the three-tool
dispatcher — identical auth and publisher-code checks, dispatch over the three
tool names in source order, unknown name throws. -/
def handleCallToolV3 (env : Env) (up : Upstream) (name : String) (_args : Option ReportArgs) :
    HandlerResult × List ApiRequest :=
  match loadSavedCredentialsIfExist env.tokenFile with
  | none => (.response notAuthenticatedResponse, [])
  | some _ =>
    if jsTruthyStr env.publisherCode then
      let publisherCode := env.publisherCode.getD ""
      if name = "get_account" then getAccountBranchV3 publisherCode up
      else if name = "list_ad_units" then listAdUnitsBranchV3 publisherCode up
      else if name = "list_apps" then listAppsBranchV3 publisherCode up
      else (.thrown ("Unknown tool: " ++ name), [])
    else (.response publisherCodeMissingResponse, [])

/-- The OAuth client identity parsed from `client_secret.json` (the fields the
flow actually uses). -/
structure ClientKey where
  client_id : String
  client_secret : String
deriving Repr, DecidableEq

/-- File-system view of `credentials/client_secret.json`: `none` when reading
throws, `some none` when neither an `installed` nor a `web` key is present,
`some (some k)` when a key is found. -/
abbrev SecretFile := Option (Option ClientKey)

/-- The single HTTP request that hits the loopback listener: its URL and the
value of its `code` query parameter (absent when the user denied consent). -/
structure CallbackReq where
  url : String
  code : Option String
deriving Repr, DecidableEq

/-- Side effects of the authorization flow, in the order they occur. -/
inductive AuthEvent
  | readClientSecret
  | bindListener (port : Nat)
  | openBrowser
  | respondEnd
  | closeListener
  | exchangeCode (code : String)
  | writeTokenFile (t : Token)
deriving Repr, DecidableEq

/-- Terminal failures of the authorization flow. -/
inductive AuthError
  | ioError
  | noClientSecrets
  | missingAuthCode
  | exchangeFailed (msg : String)
deriving Repr, DecidableEq

/-- Result of running `authorize`: a client, a terminal failure, or a promise
left pending forever because the callback request never matched the path. -/
inductive AuthFlowResult
  | authorized (c : OAuthClient)
  | failed (e : AuthError)
  | hangs
deriving Repr, DecidableEq

/-- Whether `sub` occurs as a contiguous substring of `l`
(`String.prototype.includes` on the character lists). -/
def charsInclude (sub : List Char) : List Char → Bool
  | [] => sub.isPrefixOf []
  | c :: cs => sub.isPrefixOf (c :: cs) || charsInclude sub cs

/-- JavaScript `s.includes(sub)`. -/
def jsIncludes (s sub : String) : Bool := charsInclude sub.toList s.toList

/-- Lines 106-150 of the auth module: the one-shot listener flow
(`authenticate`).  `secret` is the view of `client_secret.json`, `req` the
single request the listener receives, `exchange` the outcome
`oAuth2Client.getToken(code)` would produce (a refresh token or a rejection).
Returns the settled state of the promise (`none` when the callback request
does not match `/oauth2callback` and the promise stays pending forever),
paired with the event trace: reading the secret, binding port 3000, opening
the browser, then — on a matching callback — responding, closing the listener
before the code is examined, and finally either rejecting with the
missing-code error or performing the exchange. -/
def runAuthenticate (secret : SecretFile) (req : CallbackReq)
    (exchange : Except String String) :
    Option (Except AuthError OAuthClient) × List AuthEvent :=
  match secret with
  | none => (some (.error .ioError), [.readClientSecret])
  | some none => (some (.error .noClientSecrets), [.readClientSecret])
  | some (some _key) =>
    let pre : List AuthEvent := [.readClientSecret, .bindListener 3000, .openBrowser]
    if jsIncludes req.url "/oauth2callback" then
      let mid := pre ++ [.respondEnd, .closeListener]
      match req.code with
      | none => (some (.error .missingAuthCode), mid)
      | some c =>
        match exchange with
        | .error msg => (some (.error (.exchangeFailed msg)), mid ++ [.exchangeCode c])
        | .ok refreshTok => (some (.ok (.fromExchange refreshTok)), mid ++ [.exchangeCode c])
    else (none, pre)

/-- Lines 90-104 of the auth module: the Token payload `saveCredentials`
serializes — the literal type tag, the ClientKey identity, and the client's
refresh token. -/
def saveCredentialsPayload (key : ClientKey) (client : OAuthClient) : Token :=
  { type := "authorized_user"
    client_id := key.client_id
    client_secret := key.client_secret
    refresh_token :=
      match client with
      | .fromJSON t => t.refresh_token
      | .fromExchange r => r }

/-- Lines 64-78 of the auth module: `authorize` — return the stored client
when `loadSavedCredentialsIfExist` yields one, otherwise run the listener flow
and, on success, persist the credentials (rereading `client_secret.json`) by
overwriting the token file.  Returns the flow result, the final token-file
state, and the event trace. -/
def runAuthorize (fs : TokenFile) (secret : SecretFile) (req : CallbackReq)
    (exchange : Except String String) : AuthFlowResult × TokenFile × List AuthEvent :=
  match loadSavedCredentialsIfExist fs with
  | some client => (.authorized client, fs, [])
  | none =>
    match runAuthenticate secret req exchange with
    | (none, evs) => (.hangs, fs, evs)
    | (some (.error e), evs) => (.failed e, fs, evs)
    | (some (.ok client), evs) =>
      match secret with
      | some (some key) =>
        let payload := saveCredentialsPayload key client
        (.authorized client, some (some payload), evs ++ [.readClientSecret, .writeTokenFile payload])
      | some none => (.failed .noClientSecrets, fs, evs ++ [.readClientSecret])
      | none => (.failed .ioError, fs, evs ++ [.readClientSecret])

/-- Test that a scripted upstream page sequence has the shape quantified over
by the pagination claim: at least one response, every response a successful
page carrying an item array (possibly empty), every page but the last carrying
a truthy next token, and the last page's token absent or empty. -/
def wellFormedPages : List PageResult → Bool
  | [] => false
  | r :: rest =>
    match r, rest with
    | .ok (some _) next, [] => !(jsTruthyStr next)
    | .ok (some _) next, _ :: _ => jsTruthyStr next && wellFormedPages rest
    | _, _ => false

/-- The item array a successful page carries. -/
def pageItems : PageResult → List String
  | .ok (some l) _ => l
  | _ => []

/-- Pushing a page's items only when the array is nonempty appends the array
itself in every case. -/
theorem fetched_items_eq (l : List String) : (if l.length > 0 then l else []) = l := by
  cases l <;> simp

/-- Core pagination lemma: on a well-formed page sequence the loop, started
with any token, succeeds with the concatenation of the pages' item arrays in
page order and issues exactly one request per page. -/
theorem runListLoop_wellFormed :
    ∀ pages : List PageResult, wellFormedPages pages = true →
      ∀ tok, (runListLoop tok pages).2 = .success (pages.map pageItems).flatten ∧
        (runListLoop tok pages).1.length = pages.length := by
  intro pages
  induction pages with
  | nil => intro h; simp [wellFormedPages] at h
  | cons r rest ih =>
    intro h tok
    cases r with
    | httpError s => cases rest <;> simp [wellFormedPages] at h
    | raised m => cases rest <;> simp [wellFormedPages] at h
    | ok items next =>
      cases items with
      | none => cases rest <;> simp [wellFormedPages] at h
      | some l =>
        cases rest with
        | nil =>
          simp only [wellFormedPages, Bool.not_eq_true'] at h
          simp [runListLoop, h, pageItems, fetched_items_eq]
        | cons r' rest' =>
          simp only [wellFormedPages, Bool.and_eq_true] at h
          obtain ⟨h1, h2⟩ := h
          obtain ⟨ih1, ih2⟩ := ih h2 next
          simp [runListLoop, h1, pageItems, fetched_items_eq, ih1, ih2]

/-- C1: for every sequence of successful pages returned by the upstream list
endpoint (each with a possibly-empty item array and a truthy next-page token
on all but the last page), the `list_ad_units` and `list_apps` operations
return the concatenation of the pages' item arrays in page order — no
duplicates, no drops — and the pagination loop issues exactly one request per
page, stopping exactly when a page's next-page token is absent or empty. -/
theorem c1_list_pagination_concat (env : Env) (up : Upstream) (client : OAuthClient)
    (hauth : loadSavedCredentialsIfExist env.tokenFile = some client)
    (hpc : jsTruthyStr env.publisherCode = true)
    (hunits : wellFormedPages up.adUnitsPages = true)
    (happs : wellFormedPages up.appsPages = true) :
    (∃ reqs, handleCallTool env up "list_ad_units" none =
        (.response (textResponse (.jsonAdUnits (up.adUnitsPages.map pageItems).flatten)), reqs) ∧
      reqs.length = up.adUnitsPages.length) ∧
    (∃ reqs, handleCallTool env up "list_apps" none =
        (.response (textResponse (.jsonApps (up.appsPages.map pageItems).flatten)), reqs) ∧
      reqs.length = up.appsPages.length) := by
  obtain ⟨hu1, hu2⟩ := runListLoop_wellFormed up.adUnitsPages hunits none
  obtain ⟨ha1, ha2⟩ := runListLoop_wellFormed up.appsPages happs none
  refine ⟨⟨(runListLoop none up.adUnitsPages).1.map
      (ApiRequest.adUnitsList ("accounts/" ++ env.publisherCode.getD "")), ?_, ?_⟩,
    ⟨(runListLoop none up.appsPages).1.map
      (ApiRequest.appsList ("accounts/" ++ env.publisherCode.getD "")), ?_, ?_⟩⟩
  · simp [handleCallTool, hauth, hpc, listAdUnitsBranch, hu1]
  · simp [hu2]
  · simp [handleCallTool, hauth, hpc, listAppsBranch, ha1]
  · simp [ha2]

/-- A token record as stored in `credentials/token.json`. -/
def sampleToken : Token :=
  { type := "authorized_user", client_id := "cid", client_secret := "csec",
    refresh_token := "rtok" }

/-- An environment with a loadable stored token and a set publisher code. -/
def sampleEnv : Env :=
  { tokenFile := some (some sampleToken), publisherCode := some "pub-1" }

/-- A concrete upstream behaviour: three ad-unit pages (the middle one empty),
one app page, and successful account and report responses. -/
def sampleUpstream : Upstream :=
  { accountGet := .ok
      { name := some "accounts/pub-1", publisherId := some "pub-1",
        reportingTimeZone := some "America/Los_Angeles", currencyCode := some "USD" }
    adUnitsPages :=
      [.ok (some ["u1", "u2"]) (some "t1"), .ok (some []) (some "t2"), .ok (some ["u3"]) none]
    appsPages := [.ok (some ["a1"]) none]
    networkReport := .ok "report-rows"
    mediationReport := .ok "report-rows" }

/-- Witness for C1 at a concrete three-page ad-unit script and one-page app
script. -/
theorem c1_list_pagination_concat_witness :
    (∃ reqs, handleCallTool sampleEnv sampleUpstream "list_ad_units" none =
        (.response (textResponse
          (.jsonAdUnits (sampleUpstream.adUnitsPages.map pageItems).flatten)), reqs) ∧
      reqs.length = sampleUpstream.adUnitsPages.length) ∧
    (∃ reqs, handleCallTool sampleEnv sampleUpstream "list_apps" none =
        (.response (textResponse
          (.jsonApps (sampleUpstream.appsPages.map pageItems).flatten)), reqs) ∧
      reqs.length = sampleUpstream.appsPages.length) :=
  c1_list_pagination_concat sampleEnv sampleUpstream (.fromJSON sampleToken)
    rfl (by decide) (by decide) (by decide)

/-- Argument object missing `dateRangeStart`. -/
def argsMissingStart : ReportArgs :=
  { dateRangeEnd := some "2024-01-07", metrics := some ["CLICKS"] }

/-- Argument object with both dates present but no `metrics`. -/
def argsMissingMetrics : ReportArgs :=
  { dateRangeStart := some "2024-01-01", dateRangeEnd := some "2024-01-07" }

/-- Argument object with both dates present and an empty `metrics` array. -/
def argsEmptyMetrics : ReportArgs :=
  { dateRangeStart := some "2024-01-01", dateRangeEnd := some "2024-01-07",
    metrics := some [] }

/-- C2, evaluated at the failing inputs: a report call whose `dateRangeStart`
is absent makes the handler throw (the `split` runs before the
required-parameter check) instead of returning a soft error; a call missing
only `metrics` does get the soft error; and a call whose `metrics` is the
empty array passes the `!metrics` check and is sent upstream without any
validation error. -/
theorem c2_required_field_validation_bug :
    handleCallTool sampleEnv sampleUpstream "generate_network_report" (some argsMissingStart) =
      (.thrown "TypeError: dateRangeStart is undefined", []) ∧
    handleCallTool sampleEnv sampleUpstream "generate_network_report" (some argsMissingMetrics) =
      (.response (errorResponse (.plain "Missing required parameters.")), []) ∧
    (handleCallTool sampleEnv sampleUpstream "generate_network_report" (some argsEmptyMetrics)).1 =
      .response (textResponse (.jsonReport "report-rows")) := by
  refine ⟨by decide, by decide, by decide⟩

/-- C5: the minimal report request builds exactly the expected specification,
with no `dimensions`, `dimensionFilters` or `sortConditions` keys, and that
specification is what is sent upstream. -/
theorem c5_minimal_report_spec :
    buildReportSpec "2024-01-01" "2024-01-07" ["CLICKS"] none none none none =
      .ok { dateRange :=
              { startDate := { year := some (.int 2024), month := some (.int 1), day := some (.int 1) }
                endDate := { year := some (.int 2024), month := some (.int 1), day := some (.int 7) } }
            metrics := ["CLICKS"]
            dimensions := none
            dimensionFilters := none
            sortConditions := none } ∧
    (handleCallTool sampleEnv sampleUpstream "generate_network_report"
        (some { dateRangeStart := some "2024-01-01", dateRangeEnd := some "2024-01-07",
                metrics := some ["CLICKS"] })).2 =
      [.networkGenerate "accounts/pub-1"
        { dateRange :=
            { startDate := { year := some (.int 2024), month := some (.int 1), day := some (.int 1) }
              endDate := { year := some (.int 2024), month := some (.int 1), day := some (.int 7) } }
          metrics := ["CLICKS"]
          dimensions := none
          dimensionFilters := none
          sortConditions := none }] := by
  refine ⟨by rfl, by decide⟩

/-- A supplied nonempty `dimensionFilters` array always lands in the base
specification as the order-preserving `matchesAny` image of the input. -/
theorem buildReportSpecBase_dimensionFilters (s e : String) (ms : List String)
    (dims : Option (List String)) (fl : List FilterArg) (hfl : fl ≠ []) :
    (buildReportSpecBase s e ms dims (some fl)).dimensionFilters =
      some (fl.map fun f => { dimension := f.dimension, matchesAny := { values := f.values } }) := by
  have hlen : fl.length > 0 := List.length_pos.mpr hfl
  unfold buildReportSpecBase
  cases dims <;> simp [hlen]

/-- The base specification never carries a `sortConditions` key. -/
theorem buildReportSpecBase_sortConditions (s e : String) (ms : List String)
    (dims : Option (List String)) (fl : Option (List FilterArg)) :
    (buildReportSpecBase s e ms dims fl).sortConditions = none := by
  unfold buildReportSpecBase
  cases dims <;> cases fl <;> simp [apply_ite ReportSpec.sortConditions]

/-- A string has positive length exactly when it is nonempty. -/
theorem string_length_pos (s : String) : 0 < s.length ↔ s ≠ "" := by
  constructor
  · intro h he; subst he; simp at h
  · intro h
    rcases s with ⟨data⟩
    cases data with
    | nil => exact absurd (by rfl) h
    | cons c cs => simp [String.length]

/-- A dimension-sort argument whose properties are both present never makes
the property accesses throw. -/
theorem sortEntriesDim_ok_of_present (dsc : Option DimSortArg)
    (h : dimSortFieldsPresent dsc = true) : ∃ ds, sortEntriesDim dsc = .ok ds := by
  match dsc with
  | none => exact ⟨[], rfl⟩
  | some c =>
    cases hd : c.dimension with
    | none => simp [dimSortFieldsPresent, hd] at h
    | some d =>
      cases ho : c.order with
      | none => simp [dimSortFieldsPresent, ho] at h
      | some o =>
        simp only [sortEntriesDim, hd, ho]
        split_ifs <;> exact ⟨_, rfl⟩

/-- A metric-sort argument whose properties are both present never makes the
property accesses throw. -/
theorem sortEntriesMet_ok_of_present (msc : Option MetSortArg)
    (h : metSortFieldsPresent msc = true) : ∃ mets, sortEntriesMet msc = .ok mets := by
  match msc with
  | none => exact ⟨[], rfl⟩
  | some c =>
    cases hm : c.metric with
    | none => simp [metSortFieldsPresent, hm] at h
    | some m =>
      cases ho : c.order with
      | none => simp [metSortFieldsPresent, ho] at h
      | some o =>
        simp only [sortEntriesMet, hm, ho]
        split_ifs <;> exact ⟨_, rfl⟩

/-- When each supplied sort-condition object has both its properties, the spec
construction succeeds and leaves the base specification's dimension filters
untouched. -/
theorem buildReportSpec_ok_of_present (s e : String) (ms : List String)
    (dims : Option (List String)) (fl : Option (List FilterArg))
    (dsc : Option DimSortArg) (msc : Option MetSortArg)
    (hd : dimSortFieldsPresent dsc = true) (hm : metSortFieldsPresent msc = true) :
    ∃ spec, buildReportSpec s e ms dims fl dsc msc = .ok spec ∧
      spec.dimensionFilters = (buildReportSpecBase s e ms dims fl).dimensionFilters := by
  obtain ⟨ds, hds⟩ := sortEntriesDim_ok_of_present dsc hd
  obtain ⟨mets, hmets⟩ := sortEntriesMet_ok_of_present msc hm
  unfold buildReportSpec
  simp only [hds, hmets]
  split
  · exact ⟨_, rfl, by split <;> rfl⟩
  · exact ⟨_, rfl, rfl⟩

/-- C3: for every report call supplying a nonempty `dimensionFilters` list
(and sort-condition objects of the schema's shape, both fields present when
supplied), the specification sent upstream by either report tool carries
`dimensionFilters` equal to the order-preserving, one-to-one `matchesAny`
image of the supplied list. -/
theorem c3_dimension_filters_one_to_one (env : Env) (up : Upstream) (client : OAuthClient)
    (hauth : loadSavedCredentialsIfExist env.tokenFile = some client)
    (hpc : jsTruthyStr env.publisherCode = true)
    (startStr endStr : String) (hs : startStr ≠ "") (he : endStr ≠ "")
    (ms : List String) (dims : Option (List String)) (fl : List FilterArg) (hfl : fl ≠ [])
    (dsc : Option DimSortArg) (msc : Option MetSortArg)
    (hdsc : dimSortFieldsPresent dsc = true) (hmsc : metSortFieldsPresent msc = true) :
    ∃ spec, buildReportSpec startStr endStr ms dims (some fl) dsc msc = .ok spec ∧
      (handleCallTool env up "generate_network_report"
          (some { dateRangeStart := some startStr, dateRangeEnd := some endStr,
                  metrics := some ms, dimensions := dims, dimensionFilters := some fl,
                  dimensionSortCondition := dsc, metricSortCondition := msc })).2 =
        [.networkGenerate ("accounts/" ++ env.publisherCode.getD "") spec] ∧
      (handleCallTool env up "generate_mediation_report"
          (some { dateRangeStart := some startStr, dateRangeEnd := some endStr,
                  metrics := some ms, dimensions := dims, dimensionFilters := some fl,
                  dimensionSortCondition := dsc, metricSortCondition := msc })).2 =
        [.mediationGenerate ("accounts/" ++ env.publisherCode.getD "") spec] ∧
      spec.dimensionFilters =
        some (fl.map fun f => { dimension := f.dimension, matchesAny := { values := f.values } }) := by
  obtain ⟨spec, hspec, hdf⟩ :=
    buildReportSpec_ok_of_present startStr endStr ms dims (some fl) dsc msc hdsc hmsc
  refine ⟨spec, hspec, ?_, ?_, ?_⟩
  · cases hN : up.networkReport <;>
      simp [handleCallTool, hauth, hpc, reportBranch, hs, he, hspec, hN]
  · cases hM : up.mediationReport <;>
      simp [handleCallTool, hauth, hpc, reportBranch, hs, he, hspec, hM]
  · rw [hdf]
    exact buildReportSpecBase_dimensionFilters startStr endStr ms dims fl hfl

/-- A concrete two-element dimension filter list. -/
def sampleFilters : List FilterArg :=
  [{ dimension := "COUNTRY", values := ["US", "CA"] }, { dimension := "PLATFORM", values := ["iOS"] }]

/-- Witness for C3 at a concrete two-filter call. -/
theorem c3_dimension_filters_one_to_one_witness :
    ∃ spec, buildReportSpec "2024-01-01" "2024-01-07" ["CLICKS"] none (some sampleFilters)
        none none = .ok spec ∧
      (handleCallTool sampleEnv sampleUpstream "generate_network_report"
          (some { dateRangeStart := some "2024-01-01", dateRangeEnd := some "2024-01-07",
                  metrics := some ["CLICKS"], dimensions := none,
                  dimensionFilters := some sampleFilters,
                  dimensionSortCondition := none, metricSortCondition := none })).2 =
        [.networkGenerate ("accounts/" ++ sampleEnv.publisherCode.getD "") spec] ∧
      (handleCallTool sampleEnv sampleUpstream "generate_mediation_report"
          (some { dateRangeStart := some "2024-01-01", dateRangeEnd := some "2024-01-07",
                  metrics := some ["CLICKS"], dimensions := none,
                  dimensionFilters := some sampleFilters,
                  dimensionSortCondition := none, metricSortCondition := none })).2 =
        [.mediationGenerate ("accounts/" ++ sampleEnv.publisherCode.getD "") spec] ∧
      spec.dimensionFilters =
        some (sampleFilters.map fun f =>
          { dimension := f.dimension, matchesAny := { values := f.values } }) :=
  c3_dimension_filters_one_to_one sampleEnv sampleUpstream (.fromJSON sampleToken)
    rfl (by decide) "2024-01-01" "2024-01-07" (by decide) (by decide)
    ["CLICKS"] none sampleFilters (by decide) none none rfl rfl

/-- C4: shape of `sortConditions` — supplying both fully-specified sort
conditions yields exactly the two entries, dimension-sort first; supplying
neither leaves the `sortConditions` key absent; supplying a single condition
with an empty dimension/metric/order string silently drops it, leaving the key
absent (the construction succeeding in every case). -/
theorem c4_sort_conditions_shape :
    (∀ s e ms dims fl d o m o2, d ≠ "" → o ≠ "" → m ≠ "" → o2 ≠ "" →
      ∃ spec, buildReportSpec s e ms dims fl
          (some { dimension := some d, order := some o })
          (some { metric := some m, order := some o2 }) = .ok spec ∧
        spec.sortConditions = some [.dimension d o, .metric m o2]) ∧
    (∀ s e ms dims fl, ∃ spec,
      buildReportSpec s e ms dims fl none none = .ok spec ∧ spec.sortConditions = none) ∧
    (∀ s e ms dims fl d o, d = "" ∨ o = "" →
      ∃ spec, buildReportSpec s e ms dims fl
          (some { dimension := some d, order := some o }) none = .ok spec ∧
        spec.sortConditions = none) ∧
    (∀ s e ms dims fl m o, m = "" ∨ o = "" →
      ∃ spec, buildReportSpec s e ms dims fl none
          (some { metric := some m, order := some o }) = .ok spec ∧
        spec.sortConditions = none) := by
  refine ⟨?_, ?_, ?_, ?_⟩
  · intro s e ms dims fl d o m o2 hd ho hm ho2
    have hd' := (string_length_pos d).mpr hd
    have ho' := (string_length_pos o).mpr ho
    have hm' := (string_length_pos m).mpr hm
    have ho2' := (string_length_pos o2).mpr ho2
    refine ⟨{ buildReportSpecBase s e ms dims fl with
        sortConditions := some [.dimension d o, .metric m o2] }, ?_, rfl⟩
    simp [buildReportSpec, dimSortHasKeys, metSortHasKeys, sortEntriesDim, sortEntriesMet,
      hd', ho', hm', ho2']
  · intro s e ms dims fl
    exact ⟨buildReportSpecBase s e ms dims fl,
      by simp [buildReportSpec, dimSortHasKeys, metSortHasKeys],
      buildReportSpecBase_sortConditions s e ms dims fl⟩
  · intro s e ms dims fl d o h
    refine ⟨buildReportSpecBase s e ms dims fl, ?_,
      buildReportSpecBase_sortConditions s e ms dims fl⟩
    rcases h with rfl | rfl
    · simp [buildReportSpec, dimSortHasKeys, metSortHasKeys, sortEntriesDim, sortEntriesMet]
    · by_cases hd : 0 < d.length <;>
        simp [buildReportSpec, dimSortHasKeys, metSortHasKeys, sortEntriesDim, sortEntriesMet, hd]
  · intro s e ms dims fl m o h
    refine ⟨buildReportSpecBase s e ms dims fl, ?_,
      buildReportSpecBase_sortConditions s e ms dims fl⟩
    rcases h with rfl | rfl
    · simp [buildReportSpec, dimSortHasKeys, metSortHasKeys, sortEntriesDim, sortEntriesMet]
    · by_cases hm : 0 < m.length <;>
        simp [buildReportSpec, dimSortHasKeys, metSortHasKeys, sortEntriesDim, sortEntriesMet, hm]

/-- Witness for C4 at concrete sort conditions. -/
theorem c4_sort_conditions_shape_witness :
    (∃ spec, buildReportSpec "2024-01-01" "2024-01-07" ["CLICKS"] none none
        (some { dimension := some "DATE", order := some "ASCENDING" })
        (some { metric := some "CLICKS", order := some "DESCENDING" }) = .ok spec ∧
      spec.sortConditions =
        some [.dimension "DATE" "ASCENDING", .metric "CLICKS" "DESCENDING"]) ∧
    (∃ spec, buildReportSpec "2024-01-01" "2024-01-07" ["CLICKS"] none none none none =
        .ok spec ∧ spec.sortConditions = none) ∧
    (∃ spec, buildReportSpec "2024-01-01" "2024-01-07" ["CLICKS"] none none
        (some { dimension := some "", order := some "ASCENDING" }) none = .ok spec ∧
      spec.sortConditions = none) ∧
    (∃ spec, buildReportSpec "2024-01-01" "2024-01-07" ["CLICKS"] none none none
        (some { metric := some "CLICKS", order := some "" }) = .ok spec ∧
      spec.sortConditions = none) :=
  ⟨c4_sort_conditions_shape.1 "2024-01-01" "2024-01-07" ["CLICKS"] none none
      "DATE" "ASCENDING" "CLICKS" "DESCENDING" (by decide) (by decide) (by decide) (by decide),
    c4_sort_conditions_shape.2.1 "2024-01-01" "2024-01-07" ["CLICKS"] none none,
    c4_sort_conditions_shape.2.2.1 "2024-01-01" "2024-01-07" ["CLICKS"] none none
      "" "ASCENDING" (Or.inl rfl),
    c4_sort_conditions_shape.2.2.2 "2024-01-01" "2024-01-07" ["CLICKS"] none none
      "CLICKS" "" (Or.inr rfl)⟩

/-- C6: whenever the credential store yields no usable client, every tool call
returns the `Not Authenticated` soft error block and attempts no outbound API
request. -/
theorem c6_not_authenticated_soft_error (env : Env) (up : Upstream) (name : String)
    (args : Option ReportArgs) (h : loadSavedCredentialsIfExist env.tokenFile = none) :
    handleCallTool env up name args =
      (.response
          { content :=
              [{ type := "text"
                 text := .plain "Not Authenticated. Try running `npm run auth` to authenticate." }]
            isError := true },
        []) := by
  simp [handleCallTool, h, notAuthenticatedResponse, errorResponse]

/-- Witness for C6 with a missing token file. -/
theorem c6_not_authenticated_soft_error_witness :
    handleCallTool { tokenFile := none, publisherCode := some "pub-1" } sampleUpstream
        "get_account" none =
      (.response
          { content :=
              [{ type := "text"
                 text := .plain "Not Authenticated. Try running `npm run auth` to authenticate." }]
            isError := true },
        []) :=
  c6_not_authenticated_soft_error { tokenFile := none, publisherCode := some "pub-1" }
    sampleUpstream "get_account" none rfl

/-- C7: an authorization callback whose URL matches the callback path but
lacks a `code` query parameter terminates the flow with the missing-auth-code
failure; the event trace shows the listener was already closed when the
failure occurred (closeListener precedes the rejection, which ends the trace),
and the token file is left exactly as it was — no write event occurs. -/
theorem c7_missing_code_closes_listener_no_write (fs : TokenFile) (key : ClientKey)
    (req : CallbackReq) (exch : Except String String)
    (hload : loadSavedCredentialsIfExist fs = none)
    (hmatch : jsIncludes req.url "/oauth2callback" = true)
    (hcode : req.code = none) :
    runAuthorize fs (some (some key)) req exch =
      (.failed .missingAuthCode, fs,
        [.readClientSecret, .bindListener 3000, .openBrowser, .respondEnd, .closeListener]) := by
  simp [runAuthorize, hload, runAuthenticate, hmatch, hcode]

/-- The callback request of a user who denied consent: correct path, no code. -/
def deniedCallback : CallbackReq :=
  { url := "/oauth2callback?error=access_denied", code := none }

/-- Witness for C7 at a concrete denied-consent callback. -/
theorem c7_missing_code_closes_listener_no_write_witness :
    runAuthorize none (some (some { client_id := "cid", client_secret := "csec" }))
        deniedCallback (.error "unused") =
      (.failed .missingAuthCode, none,
        [.readClientSecret, .bindListener 3000, .openBrowser, .respondEnd, .closeListener]) :=
  c7_missing_code_closes_listener_no_write none
    { client_id := "cid", client_secret := "csec" } deniedCallback (.error "unused")
    rfl (by decide) rfl

/-- C8: whenever a loadable stored Token exists, `authorize` returns the
client built from the stored credentials, the token file is untouched, and the
event trace is empty — no listener is bound, no browser opened, no code
exchanged, no file written. -/
theorem c8_stored_token_short_circuits (secret : SecretFile) (req : CallbackReq)
    (exch : Except String String) (t : Token) :
    runAuthorize (some (some t)) secret req exch =
      (.authorized (.fromJSON t), some (some t), []) := by
  simp [runAuthorize, loadSavedCredentialsIfExist]

/-- Argument object missing `dateRangeEnd`. -/
def argsMissingEnd : ReportArgs :=
  { dateRangeStart := some "2024-01-01", metrics := some ["CLICKS"] }

/-- C9 counterexample: a generate_network_report call whose `dateRangeEnd` is
absent escapes the handler as a thrown TypeError — the dispatcher boundary
catches nothing on the report path. -/
theorem c9_report_call_throws_counterexample :
    handleCallTool sampleEnv sampleUpstream "generate_network_report" (some argsMissingEnd) =
      (.thrown "TypeError: dateRangeEnd is undefined", []) := by decide

/-- The `list_ad_units` branch never throws: every loop outcome, including an
exception caught by the surrounding try/catch, becomes a returned response. -/
theorem listAdUnitsBranch_no_throw (pc : String) (up : Upstream) (msg : String) :
    (listAdUnitsBranch pc up).1 ≠ .thrown msg := by
  cases h : (runListLoop none up.adUnitsPages).2 <;> simp [listAdUnitsBranch, h]

/-- The `list_apps` branch never throws. -/
theorem listAppsBranch_no_throw (pc : String) (up : Upstream) (msg : String) :
    (listAppsBranch pc up).1 ≠ .thrown msg := by
  cases h : (runListLoop none up.appsPages).2 <;> simp [listAppsBranch, h]

/-- C9 (amended): only the two pagination branches sit inside a try/catch, so
only they are shielded from throwing — for list_ad_units and list_apps the
handler never throws, every error (including a rejected await inside the loop)
becoming an error content block.  Every other known tool can throw once the
auth and publisher-code checks pass: get_account propagates a rejected
accounts.get await; a report call with an absent start date throws the
TypeError of the date split, which precedes the required-field check; a report
call supplying a sort-condition object that lacks its dimension property
throws the TypeError of the unchecked property access; and a report call whose
generate await rejects propagates that rejection. -/
theorem c9_throw_boundary :
    (∀ (env : Env) (up : Upstream) (args : Option ReportArgs) (name : String),
      name = "list_ad_units" ∨ name = "list_apps" →
      ∀ msg, (handleCallTool env up name args).1 ≠ .thrown msg) ∧
    (∀ (env : Env) (up : Upstream) (args : Option ReportArgs) (client : OAuthClient)
        (msg : String),
      loadSavedCredentialsIfExist env.tokenFile = some client →
      jsTruthyStr env.publisherCode = true →
      up.accountGet = .raised msg →
      (handleCallTool env up "get_account" args).1 = .thrown msg) ∧
    (∀ (env : Env) (up : Upstream) (a : ReportArgs) (client : OAuthClient),
      loadSavedCredentialsIfExist env.tokenFile = some client →
      jsTruthyStr env.publisherCode = true →
      a.dateRangeStart = none →
      (handleCallTool env up "generate_network_report" (some a)).1 =
        .thrown "TypeError: dateRangeStart is undefined") ∧
    (∀ (env : Env) (up : Upstream) (client : OAuthClient) (s e o : String)
        (ms : List String),
      loadSavedCredentialsIfExist env.tokenFile = some client →
      jsTruthyStr env.publisherCode = true →
      s ≠ "" → e ≠ "" →
      (handleCallTool env up "generate_network_report"
          (some { dateRangeStart := some s, dateRangeEnd := some e, metrics := some ms,
                  dimensionSortCondition :=
                    some { dimension := none, order := some o } })).1 =
        .thrown "TypeError: dimensionSortCondition.dimension is undefined") ∧
    (∀ (env : Env) (up : Upstream) (client : OAuthClient) (s e msg : String)
        (ms : List String),
      loadSavedCredentialsIfExist env.tokenFile = some client →
      jsTruthyStr env.publisherCode = true →
      s ≠ "" → e ≠ "" →
      up.networkReport = .raised msg →
      (handleCallTool env up "generate_network_report"
          (some { dateRangeStart := some s, dateRangeEnd := some e,
                  metrics := some ms })).1 = .thrown msg) := by
  refine ⟨?_, ?_, ?_, ?_, ?_⟩
  · intro env up args name h msg
    cases hA : loadSavedCredentialsIfExist env.tokenFile with
    | none => simp [handleCallTool, hA, notAuthenticatedResponse, errorResponse]
    | some c =>
      cases hB : jsTruthyStr env.publisherCode with
      | false => simp [handleCallTool, hA, hB, publisherCodeMissingResponse, errorResponse]
      | true =>
        rcases h with rfl | rfl <;> simp only [handleCallTool, hA, hB] <;> simp
        · exact listAdUnitsBranch_no_throw _ _ _
        · exact listAppsBranch_no_throw _ _ _
  · intro env up args client msg hA hB hacc
    simp [handleCallTool, hA, hB, getAccountBranch, hacc]
  · intro env up a client hA hB hstart
    simp [handleCallTool, hA, hB, reportBranch, hstart]
  · intro env up client s e o ms hA hB hs he
    simp [handleCallTool, hA, hB, reportBranch, hs, he, buildReportSpec,
      dimSortHasKeys, metSortHasKeys, sortEntriesDim]
  · intro env up client s e msg ms hA hB hs he hrep
    simp [handleCallTool, hA, hB, reportBranch, hs, he, buildReportSpec,
      dimSortHasKeys, metSortHasKeys, hrep]

/-- An upstream whose `accounts.get` await rejects. -/
def sampleUpstreamAcctRaised : Upstream :=
  { sampleUpstream with accountGet := .raised "network down" }

/-- An upstream whose network-report generate await rejects. -/
def sampleUpstreamNetRaised : Upstream :=
  { sampleUpstream with networkReport := .raised "socket hang up" }

/-- Witness for the amended C9 at concrete calls exercising all five parts. -/
theorem c9_throw_boundary_witness :
    (∀ msg, (handleCallTool sampleEnv sampleUpstream "list_ad_units" none).1 ≠ .thrown msg) ∧
    (handleCallTool sampleEnv sampleUpstreamAcctRaised "get_account" none).1 =
      .thrown "network down" ∧
    (handleCallTool sampleEnv sampleUpstream "generate_network_report"
        (some argsMissingStart)).1 = .thrown "TypeError: dateRangeStart is undefined" ∧
    (handleCallTool sampleEnv sampleUpstream "generate_network_report"
        (some { dateRangeStart := some "2024-01-01", dateRangeEnd := some "2024-01-07",
                metrics := some ["CLICKS"],
                dimensionSortCondition :=
                  some { dimension := none, order := some "ASCENDING" } })).1 =
      .thrown "TypeError: dimensionSortCondition.dimension is undefined" ∧
    (handleCallTool sampleEnv sampleUpstreamNetRaised "generate_network_report"
        (some { dateRangeStart := some "2024-01-01", dateRangeEnd := some "2024-01-07",
                metrics := some ["CLICKS"] })).1 = .thrown "socket hang up" :=
  ⟨c9_throw_boundary.1 sampleEnv sampleUpstream none "list_ad_units" (Or.inl rfl),
    c9_throw_boundary.2.1 sampleEnv sampleUpstreamAcctRaised none (.fromJSON sampleToken)
      "network down" rfl (by decide) rfl,
    c9_throw_boundary.2.2.1 sampleEnv sampleUpstream argsMissingStart (.fromJSON sampleToken)
      rfl (by decide) rfl,
    c9_throw_boundary.2.2.2.1 sampleEnv sampleUpstream (.fromJSON sampleToken)
      "2024-01-01" "2024-01-07" "ASCENDING" ["CLICKS"] rfl (by decide) (by decide) (by decide),
    c9_throw_boundary.2.2.2.2 sampleEnv sampleUpstreamNetRaised (.fromJSON sampleToken)
      "2024-01-01" "2024-01-07" "socket hang up" ["CLICKS"] rfl (by decide) (by decide)
      (by decide) rfl⟩

/-- The pagination loops of the two dispatcher versions compute identically. -/
theorem runListLoopV3_eq (pages : List PageResult) :
    ∀ tok, runListLoopV3 tok pages = runListLoop tok pages := by
  induction pages with
  | nil => intro tok; rfl
  | cons r rest ih =>
    intro tok
    cases r with
    | raised m => rfl
    | httpError s => rfl
    | ok items next => simp [runListLoopV3, runListLoop, ih]

/-- C10: for the three tools both dispatcher versions implement, and for every
fixed behaviour of the credential store, environment and upstream API, the
three-tool dispatcher of `src/tools.ts` and the five-tool dispatcher produce
the same outcome and issue the same requests. -/
theorem c10_dispatcher_equivalence (env : Env) (up : Upstream) (name : String)
    (args : Option ReportArgs)
    (h : name = "get_account" ∨ name = "list_ad_units" ∨ name = "list_apps") :
    handleCallToolV3 env up name args = handleCallTool env up name args := by
  cases hA : loadSavedCredentialsIfExist env.tokenFile with
  | none => simp [handleCallTool, handleCallToolV3, hA]
  | some c =>
    cases hB : jsTruthyStr env.publisherCode with
    | false => simp [handleCallTool, handleCallToolV3, hA, hB]
    | true =>
      rcases h with rfl | rfl | rfl <;>
        simp [handleCallTool, handleCallToolV3, hA, hB,
          getAccountBranchV3, getAccountBranch, listAdUnitsBranchV3, listAdUnitsBranch,
          listAppsBranchV3, listAppsBranch, runListLoopV3_eq]

/-- Witness for C10 at a concrete list_ad_units call. -/
theorem c10_dispatcher_equivalence_witness :
    handleCallToolV3 sampleEnv sampleUpstream "list_ad_units" none =
      handleCallTool sampleEnv sampleUpstream "list_ad_units" none :=
  c10_dispatcher_equivalence sampleEnv sampleUpstream "list_ad_units" none
    (Or.inr (Or.inl rfl))
